import Mathlib

/-!
Shallow embedding of the alert/aggregation core of `src/monitor.js`
(Growatt solar-monitor Telegram bot).  Timestamps are modelled as natural
numbers of milliseconds since the epoch (the value of `Date.now()` /
`new Date().getTime()` in the source); calendar dates as year/month/day
records; energy figures and temperatures as rationals (JS numbers).
-/

namespace Monitor

/-- Configuration constant `CHECK_HOUR_START` (monitor.js line 24). -/
def CHECK_HOUR_START : Nat := 10

/-- Configuration constant `CHECK_HOUR_END` (monitor.js line 25). -/
def CHECK_HOUR_END : Nat := 15

/-- Configuration constant `URGENT_ALERT_DELAY_MINUTES` (monitor.js line 26). -/
def URGENT_ALERT_DELAY_MINUTES : Nat := 15

/-- Configuration constant `MILESTONE_STEP_KWH` (monitor.js line 27), used in
rational arithmetic by the milestone check. -/
def MILESTONE_STEP_KWH : ℚ := 1000

/-- Configuration constant `LIVENESS_CHECK_HOURS` (monitor.js line 28). -/
def LIVENESS_CHECK_HOURS : Nat := 2

/-- Model of date-fns `differenceInMinutes(a, b)`: the millisecond difference
truncated to whole minutes (for `a ≥ b`; a negative JS result is below every
positive threshold exactly as the truncated-subtraction result `0` is). -/
def differenceInMinutes (a b : Nat) : Nat := (a - b) / 60000

/-- Model of date-fns `differenceInHours(a, b)` (truncating). -/
def differenceInHours (a b : Nat) : Nat := (a - b) / 3600000

/-- Model of date-fns `differenceInDays(a, b)` (truncating). -/
def differenceInDays (a b : Nat) : Nat := (a - b) / 86400000

/-- A calendar date (year, month 1..12, day-of-month), the calendar part of a
JS `Date`. -/
structure Date where
  year : Nat
  month : Nat
  day : Nat
deriving DecidableEq

/-- Gregorian leap-year rule (as implemented by the JS `Date` calendar). -/
def isLeapYear (y : Nat) : Bool :=
  (y % 4 == 0 && y % 100 != 0) || y % 400 == 0

/-- Number of days of month `m` of year `y` in the Gregorian calendar. -/
def daysInMonth (y m : Nat) : Nat :=
  if m = 2 then (if isLeapYear y then 29 else 28)
  else if m = 4 ∨ m = 6 ∨ m = 9 ∨ m = 11 then 30
  else 31

/-- The calendar successor of a date (the `+ 1 day` step that date-fns
`eachDayOfInterval` iterates). -/
def nextDay (d : Date) : Date :=
  if d.day < daysInMonth d.year d.month then ⟨d.year, d.month, d.day + 1⟩
  else if d.month < 12 then ⟨d.year, d.month + 1, 1⟩
  else ⟨d.year + 1, 1, 1⟩

/-- The calendar predecessor of a date (the `- 1 day` step used by
date-fns `startOfWeek`). -/
def prevDay (d : Date) : Date :=
  if 1 < d.day then ⟨d.year, d.month, d.day - 1⟩
  else if 1 < d.month then ⟨d.year, d.month - 1, daysInMonth d.year (d.month - 1)⟩
  else ⟨d.year - 1, 12, 31⟩

/-- `subDays d n`: the date `n` calendar days before `d`. -/
def subDays (d : Date) : Nat → Date
  | 0 => d
  | n + 1 => subDays (prevDay d) n

/-- The list of `n` consecutive calendar days starting at `start` — the model
of date-fns `eachDayOfInterval` over an `n`-day interval. -/
def listDays : Date → Nat → List Date
  | _, 0 => []
  | d, n + 1 => d :: listDays (nextDay d) n

/-- Day of week of a date by Sakamoto's congruence, `0` = Sunday, matching JS
`Date.getDay()`. -/
def dayOfWeek (d : Date) : Nat :=
  let t : List Nat := [0, 3, 2, 5, 0, 3, 5, 1, 4, 6, 2, 4]
  let y := if d.month < 3 then d.year - 1 else d.year
  (y + y / 4 - y / 100 + y / 400 + t.getD (d.month - 1) 0 + d.day) % 7

/-- Model of date-fns `startOfWeek(d, { weekStartsOn: 1 })`: the Monday on or
before `d` (monitor.js line 297/300). -/
def startOfWeek (d : Date) : Date := subDays d ((dayOfWeek d + 6) % 7)

/-- Model of date-fns `startOfMonth(d)`: the first of `d`'s month. -/
def startOfMonth (d : Date) : Date := ⟨d.year, d.month, 1⟩

/-- The Monday–Sunday week containing `d` as iterated by
`eachDayOfInterval({ start: startOfWeek(d), end: endOfWeek(d) })`
(monitor.js lines 299-300, 306): seven consecutive days from the Monday. -/
def weekInterval (d : Date) : List Date := listDays (startOfWeek d) 7

/-- The calendar month containing `d` as iterated by
`eachDayOfInterval({ start: startOfMonth(d), end: endOfMonth(d) })`
(monitor.js lines 301-302, 306). -/
def monthInterval (d : Date) : List Date :=
  listDays (startOfMonth d) (daysInMonth d.year d.month)

/-- The `historyLast` record of a device in the vendor snapshot; `eacToday` is
the day's energy figure, `none` when the field is absent (monitor.js line 294
reads `device.historyLast.eacToday || 0` through `parseFloat`). -/
structure HistoryLast where
  eacToday : Option ℚ
deriving DecidableEq

/-- A device entry of the vendor snapshot, as read by `getPeriodTotal`:
`historyLast` may be absent (monitor.js line 293). -/
structure GrowattDevice where
  historyLast : Option HistoryLast
deriving DecidableEq

/-- A plant entry of the vendor snapshot, as read by `getPeriodTotal`:
the `devices` collection (in key order) may be absent entirely
(monitor.js line 292 reads `plant.devices[Object.keys(plant.devices)[0]]`). -/
structure GrowattPlant where
  devices : Option (List GrowattDevice)
deriving DecidableEq

/-- The full `getAllPlantData` response: plant entries in `Object.keys`
order (`data[Object.keys(data)[0]]` is the head, monitor.js line 290). -/
abbrev PlantData := List GrowattPlant

/-- The `day` branch of `getPeriodTotal` (monitor.js lines 288-295) applied
to a fetched snapshot: returns `0` when the plant entry, the first device or
its `historyLast` is absent; raises a `TypeError` (modelled as `.error ()`)
when a plant entry exists but its `devices` collection is absent, because
`Object.keys(plant.devices)` throws on `undefined`; otherwise parses
`eacToday` (absent means `0` via `eacToday || 0`). -/
def dayTotal (data : PlantData) : Except Unit ℚ :=
  match data.head? with
  | none => .ok 0
  | some plant =>
    match plant.devices with
    | none => .error ()
    | some devs =>
      match devs.head? with
      | none => .ok 0
      | some device =>
        match device.historyLast with
        | none => .ok 0
        | some h => .ok (h.eacToday.getD 0)

/-- One iteration of the summation loop of `getPeriodTotal`
(monitor.js lines 306-309): `total += await getPeriodTotal(day, 'day')`,
propagating any raised error. -/
def sumStep (fetch : Date → PlantData) (total : ℚ) (day : Date) : Except Unit ℚ := do
  let dayT ← dayTotal (fetch day)
  pure (total + dayT)

/-- The summation loop of `getPeriodTotal` for week/month intervals
(monitor.js lines 305-310), starting from `total = 0`. -/
def sumInterval (fetch : Date → PlantData) (days : List Date) : Except Unit ℚ :=
  days.foldlM (sumStep fetch) 0

/-- Aggregation granularities accepted by `getPeriodTotal`. -/
inductive Period where
  | day
  | week
  | month
deriving DecidableEq

/-- Model of `getPeriodTotal(date, period)` (monitor.js lines 287-311); the
live fetch `getGrowattData(true, date)` is abstracted as the function
`fetch` from dates to returned snapshots. -/
def getPeriodTotal (fetch : Date → PlantData) (d : Date) : Period → Except Unit ℚ
  | .day => dayTotal (fetch d)
  | .week => sumInterval fetch (weekInterval d)
  | .month => sumInterval fetch (monthInterval d)

/-- The distinct alert messages the scheduled checks may send to the chat
group (each constructor names the translation key family used at its
`formatMarkdown` call site). -/
inductive Alert where
  | liveness
  | overheat
  | recovery
  | outage
  | urgent
  | bestDay
  | milestone
  | cleaning
deriving DecidableEq

/-- The `state.status` record (`OutageStatus` store): monitor.js line 76. -/
structure OutageStatus where
  isSystemDown : Bool
  outageStartTime : Option Nat
  urgentAlertSent : Bool
deriving DecidableEq

/-- The `state.stats` record: monitor.js line 75 (`bestDay` is flattened into
its `kwh` and `date` components). -/
structure BotStats where
  lastReminderDate : Nat
  nextMilestoneKwh : ℚ
  bestDayKwh : ℚ
  bestDayDate : Option Date
  lastLivenessAlert : Option Nat
  lastTempAlert : Option Nat
deriving DecidableEq

/-- The parts of `state.config` read by the scheduled checks
(monitor.js line 74). -/
structure BotConfig where
  tempThreshold : ℚ
  cleaningIntervalWeeks : Nat
deriving DecidableEq

/-- The whole persistent bot state (monitor.js lines 73-77). -/
structure BotState where
  config : BotConfig
  stats : BotStats
  status : OutageStatus
deriving DecidableEq

/-- The default `status` record created when no state file exists
(monitor.js line 76) and backing the spread-merge defaults (line 64). -/
def defaultStatus : OutageStatus :=
  { isSystemDown := false, outageStartTime := none, urgentAlertSent := false }

/-- The `status` portion of a persisted `bot_state.json` file: each field may
be absent (`none`) or present with a value; `outageStartTime` may be present
and null (`some none`). -/
structure StatusFile where
  isSystemDown : Option Bool
  outageStartTime : Option (Option Nat)
  urgentAlertSent : Option Bool

/-- The spread-merge `{ ...defaults, ...loadedState.status }` performed by
`loadState` (monitor.js line 64): a field present in the file overrides the
default. -/
def mergeStatus (f : StatusFile) : OutageStatus :=
  { isSystemDown := f.isSystemDown.getD defaultStatus.isSystemDown,
    outageStartTime := f.outageStartTime.getD defaultStatus.outageStartTime,
    urgentAlertSent := f.urgentAlertSent.getD defaultStatus.urgentAlertSent }

/-- `checkUrgentConditions` (monitor.js lines 463-471), run once per minute:
returns the updated state and the emitted alerts.  The early return fires
when the system is not down, the urgent alert was already sent, or
`outageStartTime` is null; otherwise the escalation fires exactly when the
truncated minute difference since the outage start reaches the delay. -/
def checkUrgentConditions (now : Nat) (s : BotState) : BotState × List Alert :=
  match s.status.isSystemDown, s.status.urgentAlertSent, s.status.outageStartTime with
  | true, false, some t0 =>
    if URGENT_ALERT_DELAY_MINUTES ≤ differenceInMinutes now t0 then
      ({ s with status := { s.status with urgentAlertSent := true } }, [Alert.urgent])
    else (s, [])
  | _, _, _ => (s, [])

/-- The snapshot fields read by `runHourlyChecks` after a successful fetch
(monitor.js lines 436-438): instantaneous power `pac`, inverter
`temperature`, and the device's `lastUpdateTime` timestamp. -/
structure HourSnap where
  pac : ℚ
  temperature : ℚ
  lastUpdateTime : Nat
deriving DecidableEq

/-- The re-alert cooldown guard
`(!lastAlert || differenceInHours(now, lastAlert) >= 6)` shared by the
liveness and temperature checks (monitor.js lines 441, 446). -/
def alertCooldownOver (now : Nat) : Option Nat → Bool
  | none => true
  | some t => decide (6 ≤ differenceInHours now t)

/-- The liveness check of `runHourlyChecks` (monitor.js lines 441-445). -/
def livenessCheck (now : Nat) (snap : HourSnap) (s : BotState) : BotState × List Alert :=
  if LIVENESS_CHECK_HOURS ≤ differenceInHours now snap.lastUpdateTime ∧
      alertCooldownOver now s.stats.lastLivenessAlert = true then
    ({ s with stats := { s.stats with lastLivenessAlert := some now } }, [Alert.liveness])
  else (s, [])

/-- The overheat check of `runHourlyChecks` (monitor.js lines 446-450). -/
def tempCheck (now : Nat) (snap : HourSnap) (s : BotState) : BotState × List Alert :=
  if s.config.tempThreshold ≤ snap.temperature ∧
      alertCooldownOver now s.stats.lastTempAlert = true then
    ({ s with stats := { s.stats with lastTempAlert := some now } }, [Alert.overheat])
  else (s, [])

/-- The outage/recovery transition of `runHourlyChecks`
(monitor.js lines 451-459): `if (pac > 0 && isSystemDown) … else if
(pac === 0 && !isSystemDown) …`. -/
def outageCheck (now : Nat) (snap : HourSnap) (s : BotState) : BotState × List Alert :=
  if 0 < snap.pac ∧ s.status.isSystemDown = true then
    ({ s with status := { isSystemDown := false, outageStartTime := none, urgentAlertSent := false } },
      [Alert.recovery])
  else if snap.pac = 0 ∧ s.status.isSystemDown = false then
    ({ s with status := { s.status with isSystemDown := true, outageStartTime := some now } },
      [Alert.outage])
  else (s, [])

/-- `runHourlyChecks` (monitor.js lines 420-461): `hour` is
`new Date().getHours()`, `now` the current timestamp, `fetched` the result of
`getGrowattData(true)` (`.error` covering both a connectivity throw and a
missing-structure throw while extracting, either of which lands in the
`catch` with no state change and no alert).  Outside the active window the
outage flag is cleared without an alert and nothing else runs; inside, the
liveness, overheat and outage/recovery checks run in source order. -/
def runHourlyChecks (hour now : Nat) (fetched : Except Unit HourSnap) (s : BotState) :
    BotState × List Alert :=
  if hour < CHECK_HOUR_START ∨ CHECK_HOUR_END < hour then
    (if s.status.isSystemDown then
      { s with status := { isSystemDown := false, outageStartTime := none, urgentAlertSent := false } }
     else s, [])
  else
    match fetched with
    | .error _ => (s, [])
    | .ok snap =>
      let r1 := livenessCheck now snap s
      let r2 := tempCheck now snap r1.1
      let r3 := outageCheck now snap r2.1
      (r3.1, r1.2 ++ r2.2 ++ r3.2)

/-- The snapshot fields read by `runDailyEveningChecks`
(monitor.js lines 370-371): today's production and the lifetime total. -/
structure DailySnap where
  eToday : ℚ
  eTotal : ℚ
deriving DecidableEq

/-- The best-day check of `runDailyEveningChecks` (monitor.js lines 373-376);
the JS guard is `eToday > (state.stats.bestDay.kwh || 0)`, and `kwh || 0`
equals `kwh` as a rational (falsy `0` is replaced by `0`). -/
def bestDayCheck (today : Date) (snap : DailySnap) (s : BotState) : BotState × List Alert :=
  if s.stats.bestDayKwh < snap.eToday then
    ({ s with stats := { s.stats with bestDayKwh := snap.eToday, bestDayDate := some today } },
      [Alert.bestDay])
  else (s, [])

/-- The milestone check of `runDailyEveningChecks` (monitor.js lines 377-380):
on crossing, the next threshold becomes
`Math.floor(eTotal / STEP) * STEP + STEP`. -/
def milestoneCheck (snap : DailySnap) (s : BotState) : BotState × List Alert :=
  if s.stats.nextMilestoneKwh ≤ snap.eTotal then
    ({ s with stats := { s.stats with
        nextMilestoneKwh := (⌊snap.eTotal / MILESTONE_STEP_KWH⌋ : ℚ) * MILESTONE_STEP_KWH + MILESTONE_STEP_KWH } },
      [Alert.milestone])
  else (s, [])

/-- The cleaning-reminder check of `runDailyEveningChecks`
(monitor.js lines 381-384). -/
def cleaningCheck (now : Nat) (s : BotState) : BotState × List Alert :=
  if s.config.cleaningIntervalWeeks * 7 ≤ differenceInDays now s.stats.lastReminderDate then
    ({ s with stats := { s.stats with lastReminderDate := now } }, [Alert.cleaning])
  else (s, [])

/-- `runDailyEveningChecks` (monitor.js lines 364-387): best-day, milestone
and cleaning checks in source order after a successful fetch; a throw lands
in the `catch` with no state change and no alert. -/
def runDailyEveningChecks (now : Nat) (today : Date) (fetched : Except Unit DailySnap)
    (s : BotState) : BotState × List Alert :=
  match fetched with
  | .error _ => (s, [])
  | .ok snap =>
    let r1 := bestDayCheck today snap s
    let r2 := milestoneCheck snap r1.1
    let r3 := cleaningCheck now r2.1
    (r3.1, r1.2 ++ r2.2 ++ r3.2)

/-- The module-level `apiCache` (monitor.js line 34). -/
structure ApiCache where
  data : Option PlantData
  timestamp : Nat
deriving DecidableEq

/-- The live-fetch path of `getGrowattData` (monitor.js lines 88-100):
`live` is the outcome of the login/query/logout sequence; on failure the
error propagates and the cache is untouched; on success the cache is
replaced only when the query was for today. -/
def liveFetchStep (date today : Date) (nowMs : Nat) (cache : ApiCache)
    (live : Except Unit PlantData) : Except Unit PlantData × ApiCache :=
  match live with
  | .error e => (.error e, cache)
  | .ok d => (.ok d, if date = today then { data := some d, timestamp := nowMs } else cache)

/-- `getGrowattData(forceNew, date)` (monitor.js lines 83-101) as a function
of the cache and of the would-be live-fetch outcome; `today` is the current
calendar date (`format(new Date(), 'yyyy-MM-dd')`), `nowMs` the value of
`Date.now()`.  Returns the data outcome and the new cache. -/
def getGrowattData (forceNew : Bool) (date today : Date) (nowMs : Nat) (cache : ApiCache)
    (live : Except Unit PlantData) : Except Unit PlantData × ApiCache :=
  match cache.data with
  | some cached =>
    if forceNew = false ∧ date = today ∧ nowMs - cache.timestamp < 120000 then
      (.ok cached, cache)
    else liveFetchStep date today nowMs cache live
  | none => liveFetchStep date today nowMs cache live

/-- The cache-hit guard of `getGrowattData` as a proposition:
`!forceNew && isToday && apiCache.data && (Date.now() - apiCache.timestamp < 120000)`. -/
def cacheHit (forceNew : Bool) (date today : Date) (nowMs : Nat) (cache : ApiCache) : Prop :=
  forceNew = false ∧ date = today ∧ cache.data ≠ none ∧ nowMs - cache.timestamp < 120000

/-- The data-model invariant of the `OutageStatus` store: the outage start
time is recorded exactly while the system is down, and the urgent flag is
only ever raised while the system is down. -/
def statusInvariant (s : BotState) : Prop :=
  (s.status.outageStartTime ≠ none ↔ s.status.isSystemDown = true)
  ∧ (s.status.urgentAlertSent = true → s.status.isSystemDown = true)

/-- A concrete bot state used by witness instantiations. -/
def sampleState : BotState :=
  { config := { tempThreshold := 60, cleaningIntervalWeeks := 4 },
    stats := { lastReminderDate := 0, nextMilestoneKwh := 1000, bestDayKwh := 0,
               bestDayDate := none, lastLivenessAlert := none, lastTempAlert := none },
    status := { isSystemDown := false, outageStartTime := none, urgentAlertSent := false } }

/-- A concrete down state (outage began at time 0) used by witness
instantiations. -/
def sampleDown : BotState :=
  { sampleState with status :=
      { isSystemDown := true, outageStartTime := some 0, urgentAlertSent := false } }

/-! ### Helper lemmas about the hourly pipeline -/

lemma livenessCheck_config (now : Nat) (snap : HourSnap) (s : BotState) :
    (livenessCheck now snap s).1.config = s.config := by
  unfold livenessCheck; split <;> rfl

lemma livenessCheck_status (now : Nat) (snap : HourSnap) (s : BotState) :
    (livenessCheck now snap s).1.status = s.status := by
  unfold livenessCheck; split <;> rfl

lemma livenessCheck_lastTempAlert (now : Nat) (snap : HourSnap) (s : BotState) :
    (livenessCheck now snap s).1.stats.lastTempAlert = s.stats.lastTempAlert := by
  unfold livenessCheck; split <;> rfl

lemma tempCheck_config (now : Nat) (snap : HourSnap) (s : BotState) :
    (tempCheck now snap s).1.config = s.config := by
  unfold tempCheck; split <;> rfl

lemma tempCheck_status (now : Nat) (snap : HourSnap) (s : BotState) :
    (tempCheck now snap s).1.status = s.status := by
  unfold tempCheck; split <;> rfl

lemma tempCheck_lastLivenessAlert (now : Nat) (snap : HourSnap) (s : BotState) :
    (tempCheck now snap s).1.stats.lastLivenessAlert = s.stats.lastLivenessAlert := by
  unfold tempCheck; split <;> rfl

lemma outageCheck_stats (now : Nat) (snap : HourSnap) (s : BotState) :
    (outageCheck now snap s).1.stats = s.stats := by
  unfold outageCheck
  split
  · rfl
  · split <;> rfl

lemma outageCheck_config (now : Nat) (snap : HourSnap) (s : BotState) :
    (outageCheck now snap s).1.config = s.config := by
  unfold outageCheck
  split
  · rfl
  · split <;> rfl

lemma outageCheck_alerts (now : Nat) (snap : HourSnap) (s : BotState) :
    (outageCheck now snap s).2 = [Alert.recovery] ∨ (outageCheck now snap s).2 = [Alert.outage] ∨
      (outageCheck now snap s).2 = [] := by
  unfold outageCheck; split
  · exact Or.inl rfl
  · split
    · exact Or.inr (Or.inl rfl)
    · exact Or.inr (Or.inr rfl)

lemma livenessCheck_fires (now : Nat) (snap : HourSnap) (s : BotState)
    (h1 : LIVENESS_CHECK_HOURS ≤ differenceInHours now snap.lastUpdateTime)
    (h2 : alertCooldownOver now s.stats.lastLivenessAlert = true) :
    livenessCheck now snap s =
      ({ s with stats := { s.stats with lastLivenessAlert := some now } }, [Alert.liveness]) := by
  unfold livenessCheck; rw [if_pos ⟨h1, h2⟩]

lemma livenessCheck_quiet (now : Nat) (snap : HourSnap) (s : BotState)
    (h : ¬(LIVENESS_CHECK_HOURS ≤ differenceInHours now snap.lastUpdateTime ∧
        alertCooldownOver now s.stats.lastLivenessAlert = true)) :
    livenessCheck now snap s = (s, []) := by
  unfold livenessCheck; rw [if_neg h]

lemma tempCheck_fires (now : Nat) (snap : HourSnap) (s : BotState)
    (h1 : s.config.tempThreshold ≤ snap.temperature)
    (h2 : alertCooldownOver now s.stats.lastTempAlert = true) :
    tempCheck now snap s =
      ({ s with stats := { s.stats with lastTempAlert := some now } }, [Alert.overheat]) := by
  unfold tempCheck; rw [if_pos ⟨h1, h2⟩]

lemma tempCheck_quiet (now : Nat) (snap : HourSnap) (s : BotState)
    (h : ¬(s.config.tempThreshold ≤ snap.temperature ∧
        alertCooldownOver now s.stats.lastTempAlert = true)) :
    tempCheck now snap s = (s, []) := by
  unfold tempCheck; rw [if_neg h]

lemma outageCheck_recovery (now : Nat) (snap : HourSnap) (s : BotState)
    (h1 : 0 < snap.pac) (h2 : s.status.isSystemDown = true) :
    outageCheck now snap s =
      ({ s with status :=
          { isSystemDown := false, outageStartTime := none, urgentAlertSent := false } },
        [Alert.recovery]) := by
  unfold outageCheck; rw [if_pos ⟨h1, h2⟩]

lemma outageCheck_onset (now : Nat) (snap : HourSnap) (s : BotState)
    (h1 : snap.pac = 0) (h2 : s.status.isSystemDown = false) :
    outageCheck now snap s =
      ({ s with status :=
          { s.status with isSystemDown := true, outageStartTime := some now } },
        [Alert.outage]) := by
  unfold outageCheck
  rw [if_neg (by rintro ⟨hp, hd⟩; rw [h2] at hd; cases hd), if_pos ⟨h1, h2⟩]

lemma outageCheck_quiet (now : Nat) (snap : HourSnap) (s : BotState)
    (h1 : ¬(0 < snap.pac ∧ s.status.isSystemDown = true))
    (h2 : ¬(snap.pac = 0 ∧ s.status.isSystemDown = false)) :
    outageCheck now snap s = (s, []) := by
  unfold outageCheck; rw [if_neg h1, if_neg h2]

lemma runHourlyChecks_outside (hour now : Nat) (fetched : Except Unit HourSnap) (s : BotState)
    (hw : hour < CHECK_HOUR_START ∨ CHECK_HOUR_END < hour) :
    runHourlyChecks hour now fetched s =
      (if s.status.isSystemDown then
        { s with status :=
            { isSystemDown := false, outageStartTime := none, urgentAlertSent := false } }
       else s, []) := by
  unfold runHourlyChecks; rw [if_pos hw]

lemma runHourlyChecks_err (hour now : Nat) (e : Unit) (s : BotState)
    (hw : ¬(hour < CHECK_HOUR_START ∨ CHECK_HOUR_END < hour)) :
    runHourlyChecks hour now (.error e) s = (s, []) := by
  unfold runHourlyChecks; rw [if_neg hw]

lemma runHourlyChecks_ok (hour now : Nat) (snap : HourSnap) (s : BotState)
    (hw : ¬(hour < CHECK_HOUR_START ∨ CHECK_HOUR_END < hour)) :
    runHourlyChecks hour now (.ok snap) s =
      ((outageCheck now snap (tempCheck now snap (livenessCheck now snap s).1).1).1,
        (livenessCheck now snap s).2 ++ (tempCheck now snap (livenessCheck now snap s).1).2 ++
          (outageCheck now snap (tempCheck now snap (livenessCheck now snap s).1).1).2) := by
  unfold runHourlyChecks; rw [if_neg hw]

lemma checkUrgent_fires (now : Nat) (s : BotState) (t0 : Nat)
    (h1 : s.status.isSystemDown = true) (h2 : s.status.urgentAlertSent = false)
    (h3 : s.status.outageStartTime = some t0)
    (h4 : URGENT_ALERT_DELAY_MINUTES ≤ differenceInMinutes now t0) :
    checkUrgentConditions now s =
      ({ s with status := { s.status with urgentAlertSent := true } }, [Alert.urgent]) := by
  simp only [checkUrgentConditions, h1, h2, h3]
  rw [if_pos h4]

lemma checkUrgent_noop (now : Nat) (s : BotState)
    (h : ¬(s.status.isSystemDown = true ∧ s.status.urgentAlertSent = false ∧
        ∃ t0, s.status.outageStartTime = some t0 ∧
          URGENT_ALERT_DELAY_MINUTES ≤ differenceInMinutes now t0)) :
    checkUrgentConditions now s = (s, []) := by
  unfold checkUrgentConditions
  cases hdown : s.status.isSystemDown <;>
    cases hurg : s.status.urgentAlertSent <;>
      cases hstart : s.status.outageStartTime <;>
        try rfl
  rename_i t0
  dsimp only
  rw [if_neg]
  intro hge
  exact h ⟨hdown, hurg, t0, hstart, hge⟩

lemma livenessCheck_alerts (now : Nat) (snap : HourSnap) (s : BotState) :
    (livenessCheck now snap s).2 = [Alert.liveness] ∨ (livenessCheck now snap s).2 = [] := by
  unfold livenessCheck
  split
  · exact Or.inl rfl
  · exact Or.inr rfl

lemma tempCheck_alerts (now : Nat) (snap : HourSnap) (s : BotState) :
    (tempCheck now snap s).2 = [Alert.overheat] ∨ (tempCheck now snap s).2 = [] := by
  unfold tempCheck
  split
  · exact Or.inl rfl
  · exact Or.inr rfl

lemma statusInvariant_congr (s s' : BotState) (h : s.status = s'.status) :
    statusInvariant s ↔ statusInvariant s' := by
  unfold statusInvariant
  rw [h]

lemma outageCheck_invariant (now : Nat) (snap : HourSnap) (s : BotState)
    (hI : statusInvariant s) : statusInvariant (outageCheck now snap s).1 := by
  by_cases h1 : 0 < snap.pac ∧ s.status.isSystemDown = true
  · rw [outageCheck_recovery now snap s h1.1 h1.2]
    exact ⟨by simp, by simp⟩
  · by_cases h2 : snap.pac = 0 ∧ s.status.isSystemDown = false
    · rw [outageCheck_onset now snap s h2.1 h2.2]
      exact ⟨by simp, fun _ => rfl⟩
    · rw [outageCheck_quiet now snap s h1 h2]
      exact hI

lemma outageCheck_urgent_mono (now : Nat) (snap : HourSnap) (s : BotState)
    (h : (outageCheck now snap s).1.status.urgentAlertSent = true) :
    s.status.urgentAlertSent = true := by
  revert h
  unfold outageCheck
  split
  · intro h
    cases h
  · split
    · intro h
      exact h
    · intro h
      exact h

lemma runHourly_config (hour now : Nat) (fetched : Except Unit HourSnap) (s : BotState) :
    (runHourlyChecks hour now fetched s).1.config = s.config := by
  by_cases hw : hour < CHECK_HOUR_START ∨ CHECK_HOUR_END < hour
  · rw [runHourlyChecks_outside hour now fetched s hw]
    dsimp only
    split <;> rfl
  · match fetched with
    | .error e => rw [runHourlyChecks_err hour now e s hw]
    | .ok snap =>
      rw [runHourlyChecks_ok hour now snap s hw]
      dsimp only
      rw [outageCheck_config, tempCheck_config, livenessCheck_config]

lemma tick_temp_fires (hour now : Nat) (snap : HourSnap) (s : BotState)
    (hw : ¬(hour < CHECK_HOUR_START ∨ CHECK_HOUR_END < hour))
    (hhot : s.config.tempThreshold ≤ snap.temperature)
    (hcdT : alertCooldownOver now s.stats.lastTempAlert = true) :
    (runHourlyChecks hour now (.ok snap) s).1.stats.lastTempAlert = some now
    ∧ (runHourlyChecks hour now (.ok snap) s).2.count Alert.overheat = 1 := by
  have f1 := tempCheck_fires now snap ((livenessCheck now snap s).1)
    (by rw [livenessCheck_config]; exact hhot)
    (by rw [livenessCheck_lastTempAlert]; exact hcdT)
  have e5 : (tempCheck now snap (livenessCheck now snap s).1).2 = [Alert.overheat] := by
    rw [f1]
  have e6 : (tempCheck now snap (livenessCheck now snap s).1).1.stats.lastTempAlert =
      some now := by
    rw [f1]
  rw [runHourlyChecks_ok hour now snap s hw]
  dsimp only
  refine ⟨?_, ?_⟩
  · rw [outageCheck_stats, e6]
  · rcases livenessCheck_alerts now snap s with h1 | h1 <;>
      rcases outageCheck_alerts now snap
        (tempCheck now snap (livenessCheck now snap s).1).1 with h3 | h3 | h3 <;>
      rw [h1, e5, h3] <;> decide

lemma tick_temp_quiet (hour now : Nat) (snap : HourSnap) (s : BotState)
    (hw : ¬(hour < CHECK_HOUR_START ∨ CHECK_HOUR_END < hour))
    (hcdT : alertCooldownOver now s.stats.lastTempAlert = false) :
    (runHourlyChecks hour now (.ok snap) s).1.stats.lastTempAlert = s.stats.lastTempAlert
    ∧ (runHourlyChecks hour now (.ok snap) s).2.count Alert.overheat = 0 := by
  have hT : ¬((livenessCheck now snap s).1.config.tempThreshold ≤ snap.temperature ∧
      alertCooldownOver now (livenessCheck now snap s).1.stats.lastTempAlert = true) := by
    rintro ⟨-, hcc⟩
    rw [livenessCheck_lastTempAlert, hcdT] at hcc
    cases hcc
  have f1 := tempCheck_quiet now snap ((livenessCheck now snap s).1) hT
  have e5 : (tempCheck now snap (livenessCheck now snap s).1).2 = [] := by
    rw [f1]
  have e6 : (tempCheck now snap (livenessCheck now snap s).1).1.stats.lastTempAlert =
      s.stats.lastTempAlert := by
    rw [f1, livenessCheck_lastTempAlert]
  rw [runHourlyChecks_ok hour now snap s hw]
  dsimp only
  refine ⟨?_, ?_⟩
  · rw [outageCheck_stats, e6]
  · rcases livenessCheck_alerts now snap s with h1 | h1 <;>
      rcases outageCheck_alerts now snap
        (tempCheck now snap (livenessCheck now snap s).1).1 with h3 | h3 | h3 <;>
      rw [h1, e5, h3] <;> decide

lemma tick_liveness_fires (hour now : Nat) (snap : HourSnap) (s : BotState)
    (hw : ¬(hour < CHECK_HOUR_START ∨ CHECK_HOUR_END < hour))
    (hstale : LIVENESS_CHECK_HOURS ≤ differenceInHours now snap.lastUpdateTime)
    (hcdL : alertCooldownOver now s.stats.lastLivenessAlert = true) :
    (runHourlyChecks hour now (.ok snap) s).1.stats.lastLivenessAlert = some now
    ∧ (runHourlyChecks hour now (.ok snap) s).2.count Alert.liveness = 1 := by
  have f0 := livenessCheck_fires now snap s hstale hcdL
  have e1 : (livenessCheck now snap s).1.stats.lastLivenessAlert = some now := by
    rw [f0]
  have e4 : (livenessCheck now snap s).2 = [Alert.liveness] := by
    rw [f0]
  rw [runHourlyChecks_ok hour now snap s hw]
  dsimp only
  refine ⟨?_, ?_⟩
  · rw [outageCheck_stats, tempCheck_lastLivenessAlert, e1]
  · rcases tempCheck_alerts now snap (livenessCheck now snap s).1 with h2 | h2 <;>
      rcases outageCheck_alerts now snap
        (tempCheck now snap (livenessCheck now snap s).1).1 with h3 | h3 | h3 <;>
      rw [e4, h2, h3] <;> decide

lemma tick_liveness_quiet (hour now : Nat) (snap : HourSnap) (s : BotState)
    (hw : ¬(hour < CHECK_HOUR_START ∨ CHECK_HOUR_END < hour))
    (hcdL : alertCooldownOver now s.stats.lastLivenessAlert = false) :
    (runHourlyChecks hour now (.ok snap) s).1.stats.lastLivenessAlert =
        s.stats.lastLivenessAlert
    ∧ (runHourlyChecks hour now (.ok snap) s).2.count Alert.liveness = 0 := by
  have hL : ¬(LIVENESS_CHECK_HOURS ≤ differenceInHours now snap.lastUpdateTime ∧
      alertCooldownOver now s.stats.lastLivenessAlert = true) := by
    rintro ⟨-, hcc⟩
    rw [hcdL] at hcc
    cases hcc
  have f0 := livenessCheck_quiet now snap s hL
  have e1 : (livenessCheck now snap s).1.stats.lastLivenessAlert =
      s.stats.lastLivenessAlert := by
    rw [f0]
  have e4 : (livenessCheck now snap s).2 = [] := by
    rw [f0]
  rw [runHourlyChecks_ok hour now snap s hw]
  dsimp only
  refine ⟨?_, ?_⟩
  · rw [outageCheck_stats, tempCheck_lastLivenessAlert, e1]
  · rcases tempCheck_alerts now snap (livenessCheck now snap s).1 with h2 | h2 <;>
      rcases outageCheck_alerts now snap
        (tempCheck now snap (livenessCheck now snap s).1).1 with h3 | h3 | h3 <;>
      rw [e4, h2, h3] <;> decide

/-! ### Helper lemmas about the daily pipeline -/

lemma runDaily_ok (now : Nat) (today : Date) (snap : DailySnap) (s : BotState) :
    runDailyEveningChecks now today (.ok snap) s =
      ((cleaningCheck now (milestoneCheck snap (bestDayCheck today snap s).1).1).1,
        (bestDayCheck today snap s).2 ++ (milestoneCheck snap (bestDayCheck today snap s).1).2 ++
          (cleaningCheck now (milestoneCheck snap (bestDayCheck today snap s).1).1).2) := rfl

lemma bestDayCheck_nextMilestone (today : Date) (snap : DailySnap) (s : BotState) :
    (bestDayCheck today snap s).1.stats.nextMilestoneKwh = s.stats.nextMilestoneKwh := by
  unfold bestDayCheck; split <;> rfl

lemma bestDayCheck_alerts (today : Date) (snap : DailySnap) (s : BotState) :
    (bestDayCheck today snap s).2 = [Alert.bestDay] ∨ (bestDayCheck today snap s).2 = [] := by
  unfold bestDayCheck
  split
  · exact Or.inl rfl
  · exact Or.inr rfl

lemma cleaningCheck_nextMilestone (now : Nat) (s : BotState) :
    (cleaningCheck now s).1.stats.nextMilestoneKwh = s.stats.nextMilestoneKwh := by
  unfold cleaningCheck; split <;> rfl

lemma cleaningCheck_alerts (now : Nat) (s : BotState) :
    (cleaningCheck now s).2 = [Alert.cleaning] ∨ (cleaningCheck now s).2 = [] := by
  unfold cleaningCheck
  split
  · exact Or.inl rfl
  · exact Or.inr rfl

lemma milestoneCheck_fires (snap : DailySnap) (s : BotState)
    (h : s.stats.nextMilestoneKwh ≤ snap.eTotal) :
    milestoneCheck snap s =
      ({ s with stats := { s.stats with nextMilestoneKwh :=
          (⌊snap.eTotal / MILESTONE_STEP_KWH⌋ : ℚ) * MILESTONE_STEP_KWH + MILESTONE_STEP_KWH } },
        [Alert.milestone]) := by
  unfold milestoneCheck; rw [if_pos h]

lemma milestoneCheck_quiet (snap : DailySnap) (s : BotState)
    (h : ¬s.stats.nextMilestoneKwh ≤ snap.eTotal) :
    milestoneCheck snap s = (s, []) := by
  unfold milestoneCheck; rw [if_neg h]

lemma floor_step_gt (q : ℚ) :
    q < (⌊q / MILESTONE_STEP_KWH⌋ : ℚ) * MILESTONE_STEP_KWH + MILESTONE_STEP_KWH := by
  have hstep : (0 : ℚ) < MILESTONE_STEP_KWH := by norm_num [MILESTONE_STEP_KWH]
  have h := Int.lt_floor_add_one (q / MILESTONE_STEP_KWH)
  have h2 := (div_lt_iff₀ hstep).mp h
  calc q < ((⌊q / MILESTONE_STEP_KWH⌋ : ℚ) + 1) * MILESTONE_STEP_KWH := h2
    _ = (⌊q / MILESTONE_STEP_KWH⌋ : ℚ) * MILESTONE_STEP_KWH + MILESTONE_STEP_KWH := by ring

/-! ### Helper lemmas about the period aggregator -/

lemma listDays_succ (d : Date) (n : Nat) : listDays d (n + 1) = d :: listDays (nextDay d) n :=
  rfl

lemma listDays_range (y m : Nat) :
    ∀ (n k : Nat), 1 ≤ k → k + n = daysInMonth y m + 1 →
      listDays ⟨y, m, k⟩ n = (List.range n).map (fun i => (⟨y, m, k + i⟩ : Date)) := by
  intro n
  induction n with
  | zero =>
    intro k hk hkn
    rfl
  | succ n ih =>
    intro k hk hkn
    cases n with
    | zero =>
      rfl
    | succ n2 =>
      have hklt : k < daysInMonth y m := by omega
      have hnext : nextDay ⟨y, m, k⟩ = ⟨y, m, k + 1⟩ := by
        unfold nextDay
        rw [if_pos hklt]
      rw [listDays_succ, hnext, ih (k + 1) (by omega) (by omega)]
      conv_rhs => rw [List.range_succ_eq_map, List.map_cons, List.map_map]
      congr 1
      apply List.map_congr_left
      intro i _
      show (⟨y, m, k + 1 + i⟩ : Date) = ⟨y, m, k + (i + 1)⟩
      congr 1
      omega

lemma dayTotal_cons (plant : GrowattPlant) (rest : List GrowattPlant) :
    dayTotal (plant :: rest) =
      match plant.devices with
      | none => .error ()
      | some devs =>
        match devs.head? with
        | none => .ok 0
        | some device =>
          match device.historyLast with
          | none => .ok 0
          | some h => .ok (h.eacToday.getD 0) := rfl

lemma foldl_sumStep (fetch : Date → PlantData) (v : Date → ℚ)
    (h : ∀ day, dayTotal (fetch day) = .ok (v day)) :
    ∀ (days : List Date) (acc : ℚ),
      List.foldlM (sumStep fetch) acc days = Except.ok (acc + (days.map v).sum) := by
  intro days
  induction days with
  | nil =>
    intro acc
    rw [List.foldlM_nil, List.map_nil, List.sum_nil, add_zero]
    rfl
  | cons d ds ih =>
    intro acc
    rw [List.foldlM_cons]
    have hstep : sumStep fetch acc d = Except.ok (acc + v d) := by
      unfold sumStep
      rw [h d]
      rfl
    rw [hstep]
    show List.foldlM (sumStep fetch) (acc + v d) ds = _
    rw [ih (acc + v d), List.map_cons, List.sum_cons, add_assoc]

lemma sumInterval_ok (fetch : Date → PlantData) (v : Date → ℚ)
    (h : ∀ day, dayTotal (fetch day) = .ok (v day)) (days : List Date) :
    sumInterval fetch days = Except.ok ((days.map v).sum) := by
  unfold sumInterval
  rw [foldl_sumStep fetch v h days 0, zero_add]

/-! ### Claim theorems -/

/-- C1: the per-minute `checkUrgentConditions` emits the urgent escalation
alert and sets `urgentAlertSent` exactly when the system is down, the urgent
alert has not been sent, and at least `URGENT_ALERT_DELAY_MINUTES` have
elapsed since the recorded `outageStartTime`; in every other state it leaves
the store untouched and emits nothing — in particular nothing fires before
fifteen minutes have elapsed, and once `urgentAlertSent` is true no second
escalation fires. -/
theorem c1_urgent_escalation_iff (now : Nat) (s : BotState) :
    (checkUrgentConditions now s =
        ({ s with status := { s.status with urgentAlertSent := true } }, [Alert.urgent])
      ↔ s.status.isSystemDown = true ∧ s.status.urgentAlertSent = false ∧
          ∃ t0, s.status.outageStartTime = some t0 ∧
            URGENT_ALERT_DELAY_MINUTES ≤ differenceInMinutes now t0)
    ∧ (¬(s.status.isSystemDown = true ∧ s.status.urgentAlertSent = false ∧
          ∃ t0, s.status.outageStartTime = some t0 ∧
            URGENT_ALERT_DELAY_MINUTES ≤ differenceInMinutes now t0) →
        checkUrgentConditions now s = (s, [])) := by
  refine ⟨⟨?_, ?_⟩, checkUrgent_noop now s⟩
  · intro h
    by_contra hC
    rw [checkUrgent_noop now s hC] at h
    exact absurd (congrArg Prod.snd h) (by simp)
  · rintro ⟨h1, h2, t0, h3, h4⟩
    exact checkUrgent_fires now s t0 h1 h2 h3 h4

/-- C1 witness: in a down state fifteen minutes old with the flag clear, the
check fires and sets the flag. -/
theorem c1_urgent_escalation_iff_witness :
    checkUrgentConditions 900000
        { sampleState with status :=
            { isSystemDown := true, outageStartTime := some 0, urgentAlertSent := false } } =
      ({ sampleState with status :=
            { isSystemDown := true, outageStartTime := some 0, urgentAlertSent := true } },
        [Alert.urgent]) :=
  (c1_urgent_escalation_iff 900000 _).1.mpr ⟨rfl, rfl, 0, rfl, by decide⟩

/-- C10: whenever `outageStartTime` is null the per-minute check is a no-op —
no alert, no mutation, no elapsed-time evaluation — and a state file that
records `isSystemDown` without an `outageStartTime` merges to exactly such a
state, so an escalation can never fire from a down state lacking a start
time. -/
theorem c10_null_start_noop :
    (∀ (now : Nat) (s : BotState), s.status.outageStartTime = none →
        checkUrgentConditions now s = (s, []))
    ∧ (∀ f : StatusFile, f.outageStartTime = none → f.isSystemDown = some true →
        (mergeStatus f).isSystemDown = true ∧ (mergeStatus f).outageStartTime = none) := by
  constructor
  · intro now s h
    cases hdown : s.status.isSystemDown <;> cases hurg : s.status.urgentAlertSent <;>
      simp [checkUrgentConditions, h, hdown, hurg]
  · intro f h1 h2
    simp [mergeStatus, h1, h2, defaultStatus]

/-- C10 witness: a merged file claiming a bare `isSystemDown` yields a down
state with no start time, on which the check does nothing. -/
theorem c10_null_start_noop_witness :
    checkUrgentConditions 12345
        { sampleState with status :=
            { isSystemDown := true, outageStartTime := none, urgentAlertSent := false } } =
      ({ sampleState with status :=
            { isSystemDown := true, outageStartTime := none, urgentAlertSent := false } }, [])
    ∧ (mergeStatus
        { isSystemDown := some true, outageStartTime := none,
          urgentAlertSent := none }).isSystemDown = true
    ∧ (mergeStatus
        { isSystemDown := some true, outageStartTime := none,
          urgentAlertSent := none }).outageStartTime = none :=
  ⟨c10_null_start_noop.1 12345 _ rfl,
    (c10_null_start_noop.2 _ rfl rfl).1, (c10_null_start_noop.2 _ rfl rfl).2⟩

/-- C4: both mutating checks preserve the store invariant (`outageStartTime`
non-null iff `isSystemDown`, and `urgentAlertSent` only while down); the
urgent flag becomes true only through the per-minute check at a moment at
least `URGENT_ALERT_DELAY_MINUTES` past the recorded `outageStartTime` of a
down state (the hourly check never raises it), and the freshly-created
default store satisfies the invariant. -/
theorem c4_invariant_preservation (hour now : Nat) (fetched : Except Unit HourSnap)
    (s : BotState) (hI : statusInvariant s) :
    statusInvariant (runHourlyChecks hour now fetched s).1
    ∧ statusInvariant (checkUrgentConditions now s).1
    ∧ ((checkUrgentConditions now s).1.status.urgentAlertSent = true →
        s.status.urgentAlertSent = true ∨
          ∃ t0, s.status.outageStartTime = some t0 ∧ s.status.isSystemDown = true ∧
            URGENT_ALERT_DELAY_MINUTES ≤ differenceInMinutes now t0)
    ∧ ((runHourlyChecks hour now fetched s).1.status.urgentAlertSent = true →
        s.status.urgentAlertSent = true)
    ∧ statusInvariant { config := s.config, stats := s.stats, status := defaultStatus } := by
  have hrun :
      statusInvariant (runHourlyChecks hour now fetched s).1
      ∧ ((runHourlyChecks hour now fetched s).1.status.urgentAlertSent = true →
          s.status.urgentAlertSent = true) := by
    by_cases hw : hour < CHECK_HOUR_START ∨ CHECK_HOUR_END < hour
    · rw [runHourlyChecks_outside hour now fetched s hw]
      dsimp only
      split
      · exact ⟨⟨by simp, by simp⟩, by intro h; cases h⟩
      · exact ⟨hI, fun h => h⟩
    · match fetched with
      | .error e =>
        rw [runHourlyChecks_err hour now e s hw]
        exact ⟨hI, fun h => h⟩
      | .ok snap =>
        rw [runHourlyChecks_ok hour now snap s hw]
        dsimp only
        have hst : (tempCheck now snap (livenessCheck now snap s).1).1.status = s.status := by
          rw [tempCheck_status, livenessCheck_status]
        constructor
        · exact outageCheck_invariant now snap _
            ((statusInvariant_congr _ s hst).mpr hI)
        · intro h
          have := outageCheck_urgent_mono now snap _ h
          rw [hst] at this
          exact this
  refine ⟨hrun.1, ?_, ?_, hrun.2, ?_⟩
  · by_cases hC : s.status.isSystemDown = true ∧ s.status.urgentAlertSent = false ∧
        ∃ t0, s.status.outageStartTime = some t0 ∧
          URGENT_ALERT_DELAY_MINUTES ≤ differenceInMinutes now t0
    · obtain ⟨h1, h2, t0, h3, h4⟩ := hC
      rw [checkUrgent_fires now s t0 h1 h2 h3 h4]
      refine ⟨?_, fun _ => h1⟩
      simpa using hI.1
    · rw [checkUrgent_noop now s hC]
      exact hI
  · by_cases hC : s.status.isSystemDown = true ∧ s.status.urgentAlertSent = false ∧
        ∃ t0, s.status.outageStartTime = some t0 ∧
          URGENT_ALERT_DELAY_MINUTES ≤ differenceInMinutes now t0
    · obtain ⟨h1, h2, t0, h3, h4⟩ := hC
      intro _
      exact Or.inr ⟨t0, h3, h1, h4⟩
    · rw [checkUrgent_noop now s hC]
      exact fun h => Or.inl h
  · exact ⟨by simp [defaultStatus], by simp [defaultStatus]⟩

/-- C4 witness: the invariant conclusions instantiated at an hourly tick and
an urgent tick on a concrete down state satisfying the invariant. -/
theorem c4_invariant_preservation_witness :
    statusInvariant (runHourlyChecks 12 900000 (Except.error ()) sampleDown).1
    ∧ statusInvariant (checkUrgentConditions 900000 sampleDown).1 :=
  ⟨(c4_invariant_preservation 12 900000 (Except.error ()) sampleDown
      ⟨by simp [sampleDown, sampleState], by simp [sampleDown, sampleState]⟩).1,
    (c4_invariant_preservation 12 900000 (Except.error ()) sampleDown
      ⟨by simp [sampleDown, sampleState], by simp [sampleDown, sampleState]⟩).2.1⟩

/-- C3: inside the active window, a zero power reading while the system is
up sets `isSystemDown` and stamps `outageStartTime := now` (emitting one
outage alert, `urgentAlertSent` untouched); a positive reading while down
restores the up state, clearing `outageStartTime` and `urgentAlertSent`
(one recovery alert); and no tick can perform both transitions. -/
theorem c3_outage_transitions (hour now : Nat) (snap : HourSnap) (s : BotState)
    (hw : CHECK_HOUR_START ≤ hour ∧ hour ≤ CHECK_HOUR_END) :
    (snap.pac = 0 → s.status.isSystemDown = false →
      (runHourlyChecks hour now (.ok snap) s).1.status =
        { isSystemDown := true, outageStartTime := some now,
          urgentAlertSent := s.status.urgentAlertSent }
      ∧ (runHourlyChecks hour now (.ok snap) s).2.count Alert.outage = 1)
    ∧ (0 < snap.pac → s.status.isSystemDown = true →
      (runHourlyChecks hour now (.ok snap) s).1.status =
        { isSystemDown := false, outageStartTime := none, urgentAlertSent := false }
      ∧ (runHourlyChecks hour now (.ok snap) s).2.count Alert.recovery = 1)
    ∧ (runHourlyChecks hour now (.ok snap) s).2.count Alert.outage +
        (runHourlyChecks hour now (.ok snap) s).2.count Alert.recovery ≤ 1 := by
  have hw' : ¬(hour < CHECK_HOUR_START ∨ CHECK_HOUR_END < hour) := by
    unfold CHECK_HOUR_START CHECK_HOUR_END at hw ⊢
    omega
  rw [runHourlyChecks_ok hour now snap s hw']
  have hst : (tempCheck now snap (livenessCheck now snap s).1).1.status = s.status := by
    rw [tempCheck_status, livenessCheck_status]
  dsimp only
  refine ⟨?_, ?_, ?_⟩
  · intro hp hd
    rw [outageCheck_onset now snap _ hp (by rw [hst]; exact hd), hst]
    refine ⟨rfl, ?_⟩
    rcases livenessCheck_alerts now snap s with h1 | h1 <;>
      rcases tempCheck_alerts now snap (livenessCheck now snap s).1 with h2 | h2 <;>
        rw [h1, h2] <;> dsimp only <;> decide
  · intro hp hd
    rw [outageCheck_recovery now snap _ hp (by rw [hst]; exact hd)]
    refine ⟨rfl, ?_⟩
    rcases livenessCheck_alerts now snap s with h1 | h1 <;>
      rcases tempCheck_alerts now snap (livenessCheck now snap s).1 with h2 | h2 <;>
        rw [h1, h2] <;> dsimp only <;> decide
  · rcases livenessCheck_alerts now snap s with h1 | h1 <;>
      rcases tempCheck_alerts now snap (livenessCheck now snap s).1 with h2 | h2 <;>
        rcases outageCheck_alerts now snap
            (tempCheck now snap (livenessCheck now snap s).1).1 with h3 | h3 | h3 <;>
          rw [h1, h2, h3] <;> decide

/-- C3 witness: at noon with zero power from an up state, the tick records
the outage start and emits one outage alert. -/
theorem c3_outage_transitions_witness :
    (runHourlyChecks 12 900000 (.ok ⟨0, 25, 900000⟩) sampleState).1.status =
      { isSystemDown := true, outageStartTime := some 900000, urgentAlertSent := false }
    ∧ (runHourlyChecks 12 900000 (.ok ⟨0, 25, 900000⟩) sampleState).2.count Alert.outage = 1 :=
  (c3_outage_transitions 12 900000 ⟨0, 25, 900000⟩ sampleState (by decide)).1 rfl rfl

/-- C8: on the daily evening evaluation, when the lifetime total has reached
the current `nextMilestoneKwh`, exactly one milestone alert fires and the
threshold advances to `Math.floor(eTotal / 1000) * 1000 + 1000` — one fixed
step beyond the just-crossed total, so the new threshold strictly exceeds
both the total and the old threshold and the same threshold can never fire
twice; below the threshold nothing fires and the threshold is unchanged. -/
theorem c8_milestone (now : Nat) (today : Date) (snap : DailySnap) (s : BotState) :
    (s.stats.nextMilestoneKwh ≤ snap.eTotal →
      (runDailyEveningChecks now today (.ok snap) s).2.count Alert.milestone = 1
      ∧ (runDailyEveningChecks now today (.ok snap) s).1.stats.nextMilestoneKwh =
          (⌊snap.eTotal / MILESTONE_STEP_KWH⌋ : ℚ) * MILESTONE_STEP_KWH + MILESTONE_STEP_KWH
      ∧ snap.eTotal < (runDailyEveningChecks now today (.ok snap) s).1.stats.nextMilestoneKwh
      ∧ s.stats.nextMilestoneKwh <
          (runDailyEveningChecks now today (.ok snap) s).1.stats.nextMilestoneKwh)
    ∧ (snap.eTotal < s.stats.nextMilestoneKwh →
      (runDailyEveningChecks now today (.ok snap) s).2.count Alert.milestone = 0
      ∧ (runDailyEveningChecks now today (.ok snap) s).1.stats.nextMilestoneKwh =
          s.stats.nextMilestoneKwh) := by
  rw [runDaily_ok now today snap s]
  dsimp only
  have hb := bestDayCheck_nextMilestone today snap s
  constructor
  · intro hle
    rw [milestoneCheck_fires snap _ (by rw [hb]; exact hle)]
    dsimp only
    rw [cleaningCheck_nextMilestone]
    dsimp only
    refine ⟨?_, rfl, floor_step_gt snap.eTotal,
      lt_of_le_of_lt hle (floor_step_gt snap.eTotal)⟩
    rcases bestDayCheck_alerts today snap s with h1 | h1 <;>
      rcases cleaningCheck_alerts now
          ({ (bestDayCheck today snap s).1 with stats :=
              { (bestDayCheck today snap s).1.stats with nextMilestoneKwh :=
                  (⌊snap.eTotal / MILESTONE_STEP_KWH⌋ : ℚ) * MILESTONE_STEP_KWH +
                    MILESTONE_STEP_KWH } }) with h2 | h2 <;>
        rw [h1, h2] <;> decide
  · intro hlt
    rw [milestoneCheck_quiet snap _ (by rw [hb]; exact not_le.mpr hlt)]
    dsimp only
    rw [cleaningCheck_nextMilestone, hb]
    refine ⟨?_, rfl⟩
    rcases bestDayCheck_alerts today snap s with h1 | h1 <;>
      rcases cleaningCheck_alerts now (bestDayCheck today snap s).1 with h2 | h2 <;>
        rw [h1, h2] <;> decide

/-- C8 witness: a lifetime total of 1050 kWh crossing the 1000 kWh threshold
fires exactly one milestone alert and advances the threshold to 2000 kWh. -/
theorem c8_milestone_witness :
    (runDailyEveningChecks 0 ⟨2024, 5, 1⟩ (.ok ⟨5, 1050⟩) sampleState).2.count
        Alert.milestone = 1
    ∧ (runDailyEveningChecks 0 ⟨2024, 5, 1⟩ (.ok ⟨5, 1050⟩)
        sampleState).1.stats.nextMilestoneKwh = 2000 := by
  have h := (c8_milestone 0 ⟨2024, 5, 1⟩ ⟨5, 1050⟩ sampleState).1 (by norm_num [sampleState])
  refine ⟨h.1, ?_⟩
  rw [h.2.1]
  norm_num [MILESTONE_STEP_KWH]

/-- C5: on an hourly tick whose local hour lies outside the 10:00–15:00
window, no alert is emitted and no stat is touched regardless of the fetch
outcome; the resulting state is never down, a previously down state is fully
reset, and an up state passes through unchanged. -/
theorem c5_outside_window (hour now : Nat) (fetched : Except Unit HourSnap) (s : BotState)
    (hw : hour < CHECK_HOUR_START ∨ CHECK_HOUR_END < hour) :
    (runHourlyChecks hour now fetched s).2 = []
    ∧ (runHourlyChecks hour now fetched s).1.stats = s.stats
    ∧ (runHourlyChecks hour now fetched s).1.config = s.config
    ∧ (runHourlyChecks hour now fetched s).1.status.isSystemDown = false
    ∧ (s.status.isSystemDown = true →
        (runHourlyChecks hour now fetched s).1.status =
          { isSystemDown := false, outageStartTime := none, urgentAlertSent := false })
    ∧ (s.status.isSystemDown = false → runHourlyChecks hour now fetched s = (s, [])) := by
  rw [runHourlyChecks_outside hour now fetched s hw]
  cases hd : s.status.isSystemDown <;> simp [hd]

/-- C5 witness: at 09:05 a down state is silently reset. -/
theorem c5_outside_window_witness :
    (runHourlyChecks 9 900000 (.ok ⟨0, 25, 900000⟩) sampleDown).2 = []
    ∧ (runHourlyChecks 9 900000 (.ok ⟨0, 25, 900000⟩) sampleDown).1.status =
        { isSystemDown := false, outageStartTime := none, urgentAlertSent := false } :=
  ⟨(c5_outside_window 9 900000 (.ok ⟨0, 25, 900000⟩) sampleDown (by decide)).1,
    (c5_outside_window 9 900000 (.ok ⟨0, 25, 900000⟩) sampleDown (by decide)).2.2.2.2.1 rfl⟩

/-- C7: with `forceRefresh` false, a today-query and a cache entry younger
than 120 seconds, `getGrowattData` returns the cached snapshot and an
unchanged cache whatever the live fetch would have produced (no API
contact); a failing live fetch propagates the connectivity error with the
cache entry untouched (so later cache hits still succeed); and the cache is
ever replaced only by a successful live fetch for today. -/
theorem c7_cache_semantics (forceNew : Bool) (date today : Date) (nowMs : Nat)
    (cache : ApiCache) (live : Except Unit PlantData) :
    (∀ cached, cache.data = some cached → forceNew = false → date = today →
        nowMs - cache.timestamp < 120000 →
        getGrowattData forceNew date today nowMs cache live = (.ok cached, cache))
    ∧ (getGrowattData forceNew date today nowMs cache (.error ())).2 = cache
    ∧ (¬cacheHit forceNew date today nowMs cache →
        getGrowattData forceNew date today nowMs cache (.error ()) = (.error (), cache))
    ∧ ((getGrowattData forceNew date today nowMs cache live).2 ≠ cache →
        ∃ d, live = .ok d ∧ date = today ∧
          getGrowattData forceNew date today nowMs cache live =
            (.ok d, { data := some d, timestamp := nowMs })) := by
  refine ⟨?_, ?_, ?_, ?_⟩
  · intro cached hc hf hd hfresh
    unfold getGrowattData
    rw [hc]
    dsimp only
    rw [if_pos ⟨hf, hd, hfresh⟩]
  · unfold getGrowattData liveFetchStep
    cases hc : cache.data with
    | none => rfl
    | some cached =>
      dsimp only
      split
      · rfl
      · rfl
  · intro hnh
    unfold getGrowattData liveFetchStep
    cases hc : cache.data with
    | none => rfl
    | some cached =>
      dsimp only
      rw [if_neg (fun hhit => hnh ⟨hhit.1, hhit.2.1, by rw [hc]; simp, hhit.2.2⟩)]
  · intro hne
    unfold getGrowattData at hne ⊢
    cases hc : cache.data with
    | none =>
      rw [hc] at hne
      dsimp only at hne ⊢
      unfold liveFetchStep at hne ⊢
      cases live with
      | error e => exact absurd rfl hne
      | ok d =>
        dsimp only at hne ⊢
        by_cases hdt : date = today
        · exact ⟨d, rfl, hdt, by rw [if_pos hdt]⟩
        · rw [if_neg hdt] at hne
          exact absurd rfl hne
    | some cached =>
      rw [hc] at hne
      dsimp only at hne ⊢
      by_cases hhit : forceNew = false ∧ date = today ∧ nowMs - cache.timestamp < 120000
      · rw [if_pos hhit] at hne
        exact absurd rfl hne
      · rw [if_neg hhit] at hne ⊢
        unfold liveFetchStep at hne ⊢
        cases live with
        | error e => exact absurd rfl hne
        | ok d =>
          dsimp only at hne ⊢
          by_cases hdt : date = today
          · exact ⟨d, rfl, hdt, by rw [if_pos hdt]⟩
          · rw [if_neg hdt] at hne
            exact absurd rfl hne

/-- C9: two independent cooldown statements. Temperature: starting with a
clear temperature stamp, a pair of in-window ticks both at or above the
threshold produces one overheat alert on the first tick (stamping
`lastTempAlert` with the tick time), none on a second tick less than six
truncated hours later, and one more (re-stamping) on a second tick six or
more hours later. Liveness: the same pattern for a pair of ticks whose
last-update timestamp is at least two truncated hours stale, with
`lastLivenessAlert`. -/
theorem c9_alert_cooldowns (h1 h2 t1 t2 : Nat) (snap1 snap2 : HourSnap) (s : BotState)
    (hw1 : CHECK_HOUR_START ≤ h1 ∧ h1 ≤ CHECK_HOUR_END)
    (hw2 : CHECK_HOUR_START ≤ h2 ∧ h2 ≤ CHECK_HOUR_END) :
    (s.stats.lastTempAlert = none →
      s.config.tempThreshold ≤ snap1.temperature →
      s.config.tempThreshold ≤ snap2.temperature →
        (runHourlyChecks h1 t1 (.ok snap1) s).2.count Alert.overheat = 1
        ∧ (runHourlyChecks h1 t1 (.ok snap1) s).1.stats.lastTempAlert = some t1
        ∧ (differenceInHours t2 t1 < 6 →
            (runHourlyChecks h2 t2 (.ok snap2)
              (runHourlyChecks h1 t1 (.ok snap1) s).1).2.count Alert.overheat = 0)
        ∧ (6 ≤ differenceInHours t2 t1 →
            (runHourlyChecks h2 t2 (.ok snap2)
              (runHourlyChecks h1 t1 (.ok snap1) s).1).2.count Alert.overheat = 1
            ∧ (runHourlyChecks h2 t2 (.ok snap2)
                (runHourlyChecks h1 t1 (.ok snap1) s).1).1.stats.lastTempAlert = some t2))
    ∧ (s.stats.lastLivenessAlert = none →
      LIVENESS_CHECK_HOURS ≤ differenceInHours t1 snap1.lastUpdateTime →
      LIVENESS_CHECK_HOURS ≤ differenceInHours t2 snap2.lastUpdateTime →
        (runHourlyChecks h1 t1 (.ok snap1) s).2.count Alert.liveness = 1
        ∧ (runHourlyChecks h1 t1 (.ok snap1) s).1.stats.lastLivenessAlert = some t1
        ∧ (differenceInHours t2 t1 < 6 →
            (runHourlyChecks h2 t2 (.ok snap2)
              (runHourlyChecks h1 t1 (.ok snap1) s).1).2.count Alert.liveness = 0)
        ∧ (6 ≤ differenceInHours t2 t1 →
            (runHourlyChecks h2 t2 (.ok snap2)
              (runHourlyChecks h1 t1 (.ok snap1) s).1).2.count Alert.liveness = 1
            ∧ (runHourlyChecks h2 t2 (.ok snap2)
                (runHourlyChecks h1 t1 (.ok snap1) s).1).1.stats.lastLivenessAlert =
                  some t2)) := by
  have hw1' : ¬(h1 < CHECK_HOUR_START ∨ CHECK_HOUR_END < h1) := by
    unfold CHECK_HOUR_START CHECK_HOUR_END at hw1 ⊢
    omega
  have hw2' : ¬(h2 < CHECK_HOUR_START ∨ CHECK_HOUR_END < h2) := by
    unfold CHECK_HOUR_START CHECK_HOUR_END at hw2 ⊢
    omega
  constructor
  · intro htmp0 hhot1 hhot2
    obtain ⟨hs1, hc1⟩ := tick_temp_fires h1 t1 snap1 s hw1' hhot1 (by rw [htmp0]; rfl)
    refine ⟨hc1, hs1, ?_, ?_⟩
    · intro hlt
      have hcd : alertCooldownOver t2
          (runHourlyChecks h1 t1 (.ok snap1) s).1.stats.lastTempAlert = false := by
        rw [hs1]
        show decide (6 ≤ differenceInHours t2 t1) = false
        exact decide_eq_false (by omega)
      exact (tick_temp_quiet h2 t2 snap2 (runHourlyChecks h1 t1 (.ok snap1) s).1
        hw2' hcd).2
    · intro hge
      have hcd : alertCooldownOver t2
          (runHourlyChecks h1 t1 (.ok snap1) s).1.stats.lastTempAlert = true := by
        rw [hs1]
        show decide (6 ≤ differenceInHours t2 t1) = true
        exact decide_eq_true hge
      have hhot2' : (runHourlyChecks h1 t1 (.ok snap1) s).1.config.tempThreshold ≤
          snap2.temperature := by
        rw [runHourly_config]
        exact hhot2
      obtain ⟨hs2, hc2⟩ := tick_temp_fires h2 t2 snap2
        (runHourlyChecks h1 t1 (.ok snap1) s).1 hw2' hhot2' hcd
      exact ⟨hc2, hs2⟩
  · intro hliv0 hstale1 hstale2
    obtain ⟨hs1, hc1⟩ := tick_liveness_fires h1 t1 snap1 s hw1' hstale1 (by rw [hliv0]; rfl)
    refine ⟨hc1, hs1, ?_, ?_⟩
    · intro hlt
      have hcd : alertCooldownOver t2
          (runHourlyChecks h1 t1 (.ok snap1) s).1.stats.lastLivenessAlert = false := by
        rw [hs1]
        show decide (6 ≤ differenceInHours t2 t1) = false
        exact decide_eq_false (by omega)
      exact (tick_liveness_quiet h2 t2 snap2 (runHourlyChecks h1 t1 (.ok snap1) s).1
        hw2' hcd).2
    · intro hge
      have hcd : alertCooldownOver t2
          (runHourlyChecks h1 t1 (.ok snap1) s).1.stats.lastLivenessAlert = true := by
        rw [hs1]
        show decide (6 ≤ differenceInHours t2 t1) = true
        exact decide_eq_true hge
      obtain ⟨hs2, hc2⟩ := tick_liveness_fires h2 t2 snap2
        (runHourlyChecks h1 t1 (.ok snap1) s).1 hw2' hstale2 hcd
      exact ⟨hc2, hs2⟩

/-- C9 witness: a hot pair (80 °C against a 60 °C threshold) with perfectly
fresh update timestamps one hour apart yields one overheat alert then
silence, and a stale pair (three hours without update, cool readings) one
hour apart yields one liveness alert then silence. -/
theorem c9_alert_cooldowns_witness :
    ((runHourlyChecks 12 10800000 (.ok ⟨0, 80, 10800000⟩) sampleState).2.count
        Alert.overheat = 1
      ∧ (runHourlyChecks 12 14400000 (.ok ⟨0, 80, 14400000⟩)
          (runHourlyChecks 12 10800000 (.ok ⟨0, 80, 10800000⟩) sampleState).1).2.count
            Alert.overheat = 0)
    ∧ ((runHourlyChecks 12 10800000 (.ok ⟨0, 25, 0⟩) sampleState).2.count
        Alert.liveness = 1
      ∧ (runHourlyChecks 12 14400000 (.ok ⟨0, 25, 0⟩)
          (runHourlyChecks 12 10800000 (.ok ⟨0, 25, 0⟩) sampleState).1).2.count
            Alert.liveness = 0) := by
  have HT := (c9_alert_cooldowns 12 12 10800000 14400000 ⟨0, 80, 10800000⟩
    ⟨0, 80, 14400000⟩ sampleState (by decide) (by decide)).1 rfl (by decide) (by decide)
  have HL := (c9_alert_cooldowns 12 12 10800000 14400000 ⟨0, 25, 0⟩ ⟨0, 25, 0⟩
    sampleState (by decide) (by decide)).2 rfl (by decide) (by decide)
  exact ⟨⟨HT.1, HT.2.2.1 (by decide)⟩, ⟨HL.1, HL.2.2.1 (by decide)⟩⟩

/-- C7 witness: a 500 ms old cache entry is served untouched on a
non-forced today-query. -/
theorem c7_cache_semantics_witness :
    getGrowattData false ⟨2024, 5, 1⟩ ⟨2024, 5, 1⟩ 1000
        { data := some [], timestamp := 500 } (.error ()) =
      (.ok [], { data := some [], timestamp := 500 }) :=
  (c7_cache_semantics false ⟨2024, 5, 1⟩ ⟨2024, 5, 1⟩ 1000
      { data := some [], timestamp := 500 } (.error ())).1 [] rfl rfl rfl (by decide)

/-- C2: whenever the telemetry fetch yields a well-formed daily figure for
every date, the month total is exactly the sum of the per-day results over
every calendar day `1 .. daysInMonth` of the month containing the query
date, and the week total is exactly the sum of the per-day results over the
seven days starting at the Monday of the query date's week — both by pure
summation of the `day` primitive. -/
theorem c2_period_aggregation (fetch : Date → PlantData) (d : Date) (v : Date → ℚ)
    (h : ∀ day, dayTotal (fetch day) = .ok (v day)) :
    getPeriodTotal fetch d Period.month = .ok (((monthInterval d).map v).sum)
    ∧ getPeriodTotal fetch d Period.week = .ok (((weekInterval d).map v).sum)
    ∧ (∀ day, getPeriodTotal fetch day Period.day = .ok (v day))
    ∧ monthInterval d =
        (List.range (daysInMonth d.year d.month)).map
          (fun i => (⟨d.year, d.month, i + 1⟩ : Date)) := by
  refine ⟨sumInterval_ok fetch v h (monthInterval d),
    sumInterval_ok fetch v h (weekInterval d), fun day => h day, ?_⟩
  unfold monthInterval startOfMonth
  rw [listDays_range d.year d.month (daysInMonth d.year d.month) 1 le_rfl (by omega)]
  apply List.map_congr_left
  intro i _
  show (⟨d.year, d.month, 1 + i⟩ : Date) = ⟨d.year, d.month, i + 1⟩
  congr 1
  omega

/-- C2 witness: with a fetch that reports one kWh on every date, the month
and week totals at 2023-02-10 are exactly the sums of the day figures over
the 28 February days and the 7 week days. -/
theorem c2_period_aggregation_witness :
    getPeriodTotal (fun _ => [⟨some [⟨some ⟨some 1⟩⟩]⟩]) ⟨2023, 2, 10⟩ Period.month =
        .ok (((monthInterval ⟨2023, 2, 10⟩).map (fun _ => (1 : ℚ))).sum)
    ∧ getPeriodTotal (fun _ => [⟨some [⟨some ⟨some 1⟩⟩]⟩]) ⟨2023, 2, 10⟩ Period.week =
        .ok (((weekInterval ⟨2023, 2, 10⟩).map (fun _ => (1 : ℚ))).sum)
    ∧ monthInterval ⟨2023, 2, 10⟩ =
        (List.range 28).map (fun i => (⟨2023, 2, i + 1⟩ : Date)) :=
  ⟨(c2_period_aggregation (fun _ => [⟨some [⟨some ⟨some 1⟩⟩]⟩]) ⟨2023, 2, 10⟩
      (fun _ => 1) (fun _ => rfl)).1,
    (c2_period_aggregation (fun _ => [⟨some [⟨some ⟨some 1⟩⟩]⟩]) ⟨2023, 2, 10⟩
      (fun _ => 1) (fun _ => rfl)).2.1,
    (c2_period_aggregation (fun _ => [⟨some [⟨some ⟨some 1⟩⟩]⟩]) ⟨2023, 2, 10⟩
      (fun _ => 1) (fun _ => rfl)).2.2.2⟩

/-- C6 counterexample: a snapshot whose sole plant entry lacks the `devices`
collection makes the day query raise the modelled `TypeError`
(`Object.keys(undefined)` throws) instead of returning 0, contradicting the
claim that every absent structure yields 0 without an error. -/
theorem c6_missing_devices_raises :
    getPeriodTotal (fun _ => [{ devices := none }]) ⟨2024, 5, 1⟩ Period.day = .error ()
    ∧ getPeriodTotal (fun _ => [{ devices := none }]) ⟨2024, 5, 1⟩ Period.day ≠ .ok 0 :=
  ⟨rfl, fun h => Except.noConfusion h⟩

/-- C6 (amended): the day query returns 0 without an error when the plant
entry is absent, when the devices collection is present but holds no
device, when the first device lacks `historyLast`, or when `eacToday` is
absent (and otherwise returns the parsed `eacToday` figure); but when a
plant entry exists whose `devices` collection is entirely absent, the
lookup raises a TypeError instead of returning 0. -/
theorem c6_day_missing_structures (fetch : Date → PlantData) (d : Date) :
    (fetch d = [] → getPeriodTotal fetch d Period.day = .ok 0)
    ∧ (∀ plant rest, fetch d = plant :: rest →
        (plant.devices = none → getPeriodTotal fetch d Period.day = .error ())
        ∧ (plant.devices = some [] → getPeriodTotal fetch d Period.day = .ok 0)
        ∧ (∀ device devrest, plant.devices = some (device :: devrest) →
            (device.historyLast = none → getPeriodTotal fetch d Period.day = .ok 0)
            ∧ (∀ hl, device.historyLast = some hl →
                (hl.eacToday = none → getPeriodTotal fetch d Period.day = .ok 0)
                ∧ (∀ q, hl.eacToday = some q →
                    getPeriodTotal fetch d Period.day = .ok q)))) := by
  constructor
  · intro hnil
    show dayTotal (fetch d) = .ok 0
    rw [hnil]
    rfl
  · intro plant rest hcons
    have hday : getPeriodTotal fetch d Period.day = dayTotal (plant :: rest) := by
      show dayTotal (fetch d) = _
      rw [hcons]
    refine ⟨?_, ?_, ?_⟩
    · intro hdev
      rw [hday, dayTotal_cons]
      simp only [hdev]
    · intro hdev
      rw [hday, dayTotal_cons]
      simp only [hdev, List.head?_nil]
    · intro device devrest hdev
      refine ⟨?_, ?_⟩
      · intro hhl
        rw [hday, dayTotal_cons]
        simp only [hdev, List.head?_cons, hhl]
      · intro hl hhl
        refine ⟨?_, ?_⟩
        · intro hq
          rw [hday, dayTotal_cons]
          simp only [hdev, List.head?_cons, hhl, hq, Option.getD_none]
        · intro q hq
          rw [hday, dayTotal_cons]
          simp only [hdev, List.head?_cons, hhl, hq, Option.getD_some]

/-- C6 (amended) witness: an empty snapshot, an empty devices collection, a
device without `historyLast`, and a present `eacToday` each behave as the
amended claim states. -/
theorem c6_day_missing_structures_witness :
    getPeriodTotal (fun _ => []) ⟨2024, 5, 1⟩ Period.day = .ok 0
    ∧ getPeriodTotal (fun _ => [⟨some []⟩]) ⟨2024, 5, 1⟩ Period.day = .ok 0
    ∧ getPeriodTotal (fun _ => [⟨some [⟨none⟩]⟩]) ⟨2024, 5, 1⟩ Period.day = .ok 0
    ∧ getPeriodTotal (fun _ => [⟨some [⟨some ⟨some 7⟩⟩]⟩]) ⟨2024, 5, 1⟩ Period.day = .ok 7 :=
  ⟨(c6_day_missing_structures (fun _ => []) ⟨2024, 5, 1⟩).1 rfl,
    (((c6_day_missing_structures (fun _ => [⟨some []⟩]) ⟨2024, 5, 1⟩).2 _ _ rfl).2.1) rfl,
    ((((c6_day_missing_structures (fun _ => [⟨some [⟨none⟩]⟩]) ⟨2024, 5, 1⟩).2 _ _
        rfl).2.2 _ _ rfl).1) rfl,
    (((((c6_day_missing_structures (fun _ => [⟨some [⟨some ⟨some 7⟩⟩]⟩])
        ⟨2024, 5, 1⟩).2 _ _ rfl).2.2 _ _ rfl).2 _ rfl).2) 7 rfl⟩

end Monitor
